import Mathlib

/-!
# Verification of the DigSig LSM core (security/digsig/digsig.c)

A shallow embedding of the DigSig kernel module's verification core.
Pure computations of digsig.c are translated to Lean functions; the
kernel-managed mutable state (inode security fields, writer counts, the
verdict cache flag) is threaded explicitly.  External collaborators that
are declared in headers but whose code is not part of this repository
(the revocation list, the hash/verify context, kernel_read) are modelled
from the specification and marked as such in their doc comments.

Machine integers are modelled as `Nat`/`Int`; all arithmetic performed by
digsig.c on these paths stays far below any word-size boundary except the
`i_security` decrement, which is discussed at `digsig_allow_write_access`.
-/

namespace Digsig

/-! ## Constants (errno values and digsig_common.h constants) -/

def EPERM : Int := 1
def ENOMEM : Int := 12
def EINVAL : Int := 22
def ETXTBSY : Int := 26

/-- Modelled from the spec: `DIGSIG_ELF_SIG_SIZE` is declared in
digsig_common.h, which is not part of this repository's sources.  The spec
fixes it only as "a fixed signature-blob size"; the historical value 512 is
used here.  No theorem below depends on the particular value. -/
def DIGSIG_ELF_SIG_SIZE : Nat := 512

/-- Modelled from the spec: the fixed streaming block size
(`DIGSIG_ELF_READ_BLOCK_SIZE`, digsig_common.h, "a few KiB is typical");
the historical value 1024 is used.  No theorem depends on the value. -/
def DIGSIG_ELF_READ_BLOCK_SIZE : Nat := 1024

/-- Modelled from the spec: the reserved section-type marker
(`DIGSIG_ELF_SIG_SECTION`, digsig_common.h).  The value is opaque to every
claim; only equality with a section's `sh_type` matters. -/
def DIGSIG_ELF_SIG_SECTION : Nat := 0x80736967

/-- Modelled from the spec: the size of the reserved metadata prefix of the
signature blob (`DIGSIG_BSIGN_INFOS`, digsig_common.h), skipped when the
final verification reads the raw signature bytes. -/
def DIGSIG_BSIGN_INFOS : Nat := 16

/-- The 4 ELF magic bytes `\x7fELF` (`ELFMAG`, `SELFMAG = 4`). -/
def ELFMAG : List Nat := [0x7f, 0x45, 0x4c, 0x46]

def EI_CLASS : Nat := 4
def ELFCLASS32 : Nat := 1

/-- `sizeof(Elf32_Shdr)` on the kernel's ABI. -/
def sizeofElf32Shdr : Nat := 40

/-- `sizeof(Elf64_Shdr)` on the kernel's ABI. -/
def sizeofElf64Shdr : Nat := 64

/-! ## Data model -/

/-- The ELF header fields digsig.c reads, as interpreted for the detected
bitness (the C code reads `sizeof(struct elf64_hdr)` bytes once and casts
to `elf32_hdr` when `e_ident[EI_CLASS] == ELFCLASS32`; the byte-level
reinterpretation is abstracted: these are the field values seen under the
detected class). -/
structure ElfHdr where
  e_ident : List Nat
  e_shoff : Nat
  e_shentsize : Nat
  e_shnum : Nat
deriving DecidableEq

/-- One section descriptor, the fields digsig.c reads from an
`Elf32_Shdr`/`Elf64_Shdr`. -/
structure Shdr where
  sh_type : Nat
  sh_size : Nat
  sh_offset : Nat
deriving DecidableEq

/-- The kernel-managed per-inode state digsig.c reads and writes:
`i_security` (DigSig's exec-map count), `i_writecount` (the VFS count of
writers, read via `atomic_read`), and whether the verdict cache holds an
entry for this inode (`is_cached_signature`). -/
structure Inode where
  isec : Nat
  writecount : Nat
  cached : Bool
deriving DecidableEq

/-- Mirror of a C pointer-or-error return (`NULL` / `ERR_PTR(e)` / valid). -/
inductive KPtr (α : Type) where
  | null : KPtr α
  | errPtr : Int → KPtr α
  | ptr : α → KPtr α
deriving DecidableEq

/-! ## File reads

`kernel_read(file, offset, buf, count)` is a kernel service external to
this repository.  For in-memory file content it returns
`min count (size - offset)` bytes; modelled by `fileReadAt`.  The
streaming verify loop is additionally parameterised over the result of
each successive read (`reads : Nat → Except Int (List Nat)`), because the
kernel's read contract also admits error returns and short reads, and the
claims quantify over the code's treatment of those results. -/

/-- `kernel_read` on stable in-memory content: the bytes of `content`
starting at `offset`, at most `count` of them. -/
def fileReadAt (content : List Nat) (offset count : Nat) : List Nat :=
  (content.drop offset).take count

/-! ## Revocation checker -/

/-- Modelled from the spec: `digsig_is_revoked_sig` (digsig_revocation.h,
not in this repository's sources) performs an exact-match lookup of the
signature bytes in an externally maintained revocation set. -/
def digsig_is_revoked_sig (rev : List (List Nat)) (sig : List Nat) : Bool :=
  rev.contains sig

/-! ## Signature locator (digsig_read_signature, digsig_find_signature32/64) -/

/-- `digsig_read_signature`: read exactly `DIGSIG_ELF_SIG_SIZE` bytes at
`offset`; a short read returns NULL (modelled `none`). -/
def digsig_read_signature (content : List Nat) (offset : Nat) :
    Option (List Nat) :=
  let buffer := fileReadAt content offset DIGSIG_ELF_SIG_SIZE
  if buffer.length ≠ DIGSIG_ELF_SIG_SIZE then none else some buffer

/-- `digsig_find_signature32`: linear scan of the section table (the
`e_shnum` entries delivered by `read_section_header`) for the first entry
of type `DIGSIG_ELF_SIG_SECTION`; absence, a size different from
`DIGSIG_ELF_SIG_SIZE`, and a failed signature read all return NULL.  The
second component records whether a signature read was attempted, i.e.
whether control reached `digsig_read_signature`. -/
def digsig_find_signature32 (shdata : List Shdr) (content : List Nat) :
    Option (List Nat × Nat) × Bool :=
  match shdata.find? (fun s => s.sh_type == DIGSIG_ELF_SIG_SECTION) with
  | none => (none, false)
  | some s =>
    if s.sh_size ≠ DIGSIG_ELF_SIG_SIZE then (none, false)
    else
      match digsig_read_signature content s.sh_offset with
      | none => (none, true)
      | some buffer => (some (buffer, s.sh_offset), true)

/-- `digsig_find_signature64`: textually identical to the 32-bit variant in
digsig.c, duplicated here as in the source. -/
def digsig_find_signature64 (shdata : List Shdr) (content : List Nat) :
    Option (List Nat × Nat) × Bool :=
  match shdata.find? (fun s => s.sh_type == DIGSIG_ELF_SIG_SECTION) with
  | none => (none, false)
  | some s =>
    if s.sh_size ≠ DIGSIG_ELF_SIG_SIZE then (none, false)
    else
      match digsig_read_signature content s.sh_offset with
      | none => (none, true)
      | some buffer => (some (buffer, s.sh_offset), true)

/-! ## Streaming verify engine (digsig_verify_signature) -/

/-- The `memset(read_blocks + lo, 0, hi - lo)` of the zero-patching step:
indices `j` of `block` with `lo ≤ j < hi` are overwritten with zero;
`j` is the index of the head of `block` within the full read buffer. -/
def memsetRange : List Nat → Nat → Nat → Nat → List Nat
  | [], _, _, _ => []
  | b :: rest, j, lo, hi =>
    (if lo ≤ j ∧ j < hi then 0 else b) :: memsetRange rest (j + 1) lo hi

/-- The zero-patching step of digsig_verify_signature (lines 284-297):
`lower = sh_offset`, `upper = sh_offset + DIGSIG_ELF_SIG_SIZE`; if
`lower < offset + DIGSIG_ELF_READ_BLOCK_SIZE` and `offset < upper`, clamp
and `memset` the sub-range to zero.  The C code memsets the full
block-sized buffer; only the bytes actually read are ever fed to the hash,
so the patch is modelled on that fed prefix (`block`). -/
def zeroPatch (block : List Nat) (offset shoff : Nat) : List Nat :=
  let lower := shoff
  let upper := shoff + DIGSIG_ELF_SIG_SIZE
  if lower < offset + DIGSIG_ELF_READ_BLOCK_SIZE ∧ offset < upper then
    let lo := max offset lower
    let hi := min (offset + DIGSIG_ELF_READ_BLOCK_SIZE) upper
    memsetRange block 0 (lo - offset) (hi - offset)
  else block

/-- The read loop of digsig_verify_signature (lines 270-306), one
constructor per outcome of `goto out` and of normal loop exit.  On
`.error (e, k, fed)` the loop aborted with `retval = e` after `k` calls to
`kernel_read`, having fed `fed` to the hash context; on `.ok (fed, k)` the
loop ran to completion.  The loop advances `offset` by a full block stride
each iteration and feeds `retval` bytes (the read result) after
zero-patching; the C `retval <= 0` abort keeps `retval` as the function's
return value.  The first argument of the recursion is fuel; called with
`i_size` it never runs out before `offset < i_size` fails, because
`offset` grows by `DIGSIG_ELF_READ_BLOCK_SIZE ≥ 1` each step. -/
def verifyLoop (reads : Nat → Except Int (List Nat)) (shoff i_size : Nat) :
    Nat → Nat → Nat → List Nat →
    Except (Int × Nat × List Nat) (List Nat × Nat)
  | 0, _, k, fed => .ok (fed, k)
  | fuel + 1, offset, k, fed =>
    if offset < i_size then
      match reads k with
      | .error e => .error (e, k + 1, fed)
      | .ok bytes =>
        let chunk := bytes.take DIGSIG_ELF_READ_BLOCK_SIZE
        if chunk.length = 0 then .error (0, k + 1, fed)
        else
          verifyLoop reads shoff i_size fuel
            (offset + DIGSIG_ELF_READ_BLOCK_SIZE) (k + 1)
            (fed ++ zeroPatch chunk offset shoff)
    else .ok (fed, k)

/-- Observable outcome of `digsig_verify_signature`: the returned value,
whether the crypto context was initialised
(`digsig_sign_verify_init` was called and succeeded), how many content
block reads were issued, and the bytes fed to the hash context. -/
structure VerifyOut where
  retval : Int
  ctxInit : Bool
  readCount : Nat
  fed : List Nat
deriving DecidableEq

/-- `digsig_verify_signature` (lines 238-328).  The hash/verify context
(digsig_verify.h, not in this repository's sources) is modelled from the
spec as an accumulator of the fed bytes; `initOk` models the
`digsig_sign_verify_init` allocation, `blocksAllocOk` the `read_blocks`
kmalloc, and `finalFn fed tail` the external
`digsig_sign_verify_final` primitive applied to the accumulated bytes and
to `sig_orig + DIGSIG_BSIGN_INFOS` (zero on success, nonzero otherwise,
mapped to `-EPERM` as in lines 311-316). -/
def digsig_verify_signature (rev : List (List Nat))
    (initOk blocksAllocOk : Bool)
    (finalFn : List Nat → List Nat → Int)
    (reads : Nat → Except Int (List Nat)) (i_size : Nat)
    (sig_orig : List Nat) (sh_offset : Nat) : VerifyOut :=
  if digsig_is_revoked_sig rev sig_orig then
    ⟨-EPERM, false, 0, []⟩
  else if !initOk then ⟨-ENOMEM, false, 0, []⟩
  else if !blocksAllocOk then ⟨-ENOMEM, true, 0, []⟩
  else
    match verifyLoop reads sh_offset i_size i_size 0 0 [] with
    | .error (e, k, fed) => ⟨e, true, k, fed⟩
    | .ok (fed, k) =>
      let r := finalFn fed (sig_orig.drop DIGSIG_BSIGN_INFOS)
      ⟨if r ≠ 0 then -EPERM else 0, true, k, fed⟩

/-! ## Write/exec guard primitives -/

/-- `digsig_inode_permission` (lines 101-116): for a write-mode permission
check, deny with `-EPERM` while the exec-map count is positive; otherwise
allow and drop any cached signature validation. -/
def digsig_inode_permission (g_init : Bool) (ino : Inode) (mayWrite : Bool) :
    Int × Inode :=
  if !g_init then (0, ino)
  else if mayWrite then
    if ino.isec > 0 then (-EPERM, ino)
    else if ino.cached then (0, { ino with cached := false })
    else (0, ino)
  else (0, ino)

/-- `digsig_inode_unlink` (lines 125-136): drop the cached validation of
the unlinked inode. -/
def digsig_inode_unlink (g_init : Bool) (ino : Inode) : Int × Inode :=
  if !g_init then (0, ino)
  else if !ino.cached then (0, ino)
  else (0, { ino with cached := false })

/-- `digsig_deny_write_access` (lines 339-355): fail with `-ETXTBSY` while
the inode has writers; otherwise increment `i_security` and set
`f_security = 1` on the requesting file.  Returns
`(retval, inode, f_security)`. -/
def digsig_deny_write_access (ino : Inode) (fsec : Bool) :
    Int × Inode × Bool :=
  if ino.writecount > 0 then (-ETXTBSY, ino, fsec)
  else (0, { ino with isec := ino.isec + 1 }, true)

/-- `digsig_allow_write_access` (lines 361-371): decrement `i_security`,
clear `f_security`.  The C decrement is on an unsigned long and would wrap
at zero; every call site below decrements only after a matching increment
(guarded by `f_security`/`allow_write_on_exit`), where truncated `Nat`
subtraction agrees with the C. -/
def digsig_allow_write_access (ino : Inode) (_fsec : Bool) : Inode × Bool :=
  ({ ino with isec := ino.isec - 1 }, false)

/-! ## Binary header reader -/

/-- `elf_sanity_check32` (lines 390-415): 0 if the header is ok, -2 if not
ELF, -1 otherwise. -/
def elf_sanity_check32 (h : ElfHdr) : Int :=
  if h.e_ident.take 4 ≠ ELFMAG then -2
  else if h.e_shoff = 0 then -1
  else if h.e_shentsize ≠ sizeofElf32Shdr then -1
  else if h.e_shnum > 65536 / sizeofElf32Shdr then -1
  else 0

/-- `elf_sanity_check64` (lines 417-442). -/
def elf_sanity_check64 (h : ElfHdr) : Int :=
  if h.e_ident.take 4 ≠ ELFMAG then -2
  else if h.e_shoff = 0 then -1
  else if h.e_shentsize ≠ sizeofElf64Shdr then -1
  else if h.e_shnum > 65536 / sizeofElf64Shdr then -1
  else 0

/-- `read_elf_header` (lines 451-477): allocate, read the header bytes
(the kernel_read result is not checked by the C code; `hdr` is whatever
ends up in the buffer), dispatch the sanity check on `e_ident[EI_CLASS]`,
and map its result: 0 to the header pointer, -1 to `ERR_PTR(-EINVAL)`,
-2 to `NONELF_PERM` (NULL). -/
def read_elf_header (hdrAllocOk : Bool) (hdr : ElfHdr) : KPtr ElfHdr :=
  if !hdrAllocOk then .errPtr (-ENOMEM)
  else
    let r := if hdr.e_ident.getD EI_CLASS 0 = ELFCLASS32
             then elf_sanity_check32 hdr
             else elf_sanity_check64 hdr
    if r = 0 then .ptr hdr
    else if r = -1 then .errPtr (-EINVAL)
    else .null

/-! ## Section table reader -/

/-- `read_section_header` (lines 479-502): allocate `e_shnum` entries'
worth of bytes and read them at `e_shoff`; a short read (the file's table
holds fewer than the declared number of entries) is `ERR_PTR(-EINVAL)`.
The byte-level read of `e_shnum * e_shentsize` bytes at `e_shoff` is
modelled at entry granularity over `avail`, the section descriptors the
file's table actually contains (the sanity check has already forced
`e_shentsize` to the exact structure size). -/
def read_section_header (shAllocOk : Bool) (avail : List Shdr) (n : Nat) :
    KPtr (List Shdr) :=
  if !shAllocOk then .errPtr (-ENOMEM)
  else if avail.length < n then .errPtr (-EINVAL)
  else .ptr (avail.take n)

/-! ## Execution gate (digsig_mmap_file) -/

/-- Which steps of the pipeline a `digsig_mmap_file` run performed. -/
structure MTrace where
  cacheHit : Bool
  headerRead : Bool
  sectionRead : Bool
  sigRead : Bool
  verifyCalled : Bool
  hashReads : Nat
deriving DecidableEq

def MTrace.start : MTrace := ⟨false, false, false, false, false, 0⟩

/-- The environment of one `digsig_mmap_file` invocation: the module and
request flags, the policy default `DIGSIG_MODE` (`0` permissive, `-EPERM`
restrictive), the file's parsed header and on-disk section table and raw
content, allocation outcomes, and the external crypto/revocation/read
services as in `digsig_verify_signature`. -/
structure MmapEnv where
  g_init : Bool
  reqprot_exec : Bool
  fileOk : Bool
  unprotected : Bool
  mode : Int
  hdrAllocOk : Bool
  hdr : ElfHdr
  shAllocOk : Bool
  sections : List Shdr
  content : List Nat
  rev : List (List Nat)
  initOk : Bool
  blocksAllocOk : Bool
  finalFn : List Nat → List Nat → Int
  reads : Nat → Except Int (List Nat)
  i_size : Nat

/-- Result of one `digsig_mmap_file` invocation: the hook's return value
and the updated inode state and `f_security` flag, plus the trace. -/
structure MmapOut where
  retval : Int
  ino : Inode
  fsec : Bool
  trace : MTrace
deriving DecidableEq

/-- The common exit path of digsig_mmap_file (out labels, lines 683-689):
if `allow_write_on_exit` is still set, release the writer exclusion via
`digsig_allow_write_access`. -/
def mmapExit (retval : Int) (awoe : Bool) (ino : Inode) (fsec : Bool)
    (tr : MTrace) : MmapOut :=
  if awoe then
    let r := digsig_allow_write_access ino fsec
    ⟨retval, r.1, r.2, tr⟩
  else ⟨retval, ino, fsec, tr⟩

/-- digsig_mmap_file from the cached-signature check onward (lines
603-689), after the writer-exclusion preamble fixed `die_if_elf`,
`allow_write_on_exit` (`awoe`) and the current inode/file state. -/
def digsigMmapStage2 (env : MmapEnv) (die_if_elf : Int) (awoe : Bool)
    (ino1 : Inode) (fsec1 : Bool) : MmapOut :=
  if ino1.cached then
    ⟨0, ino1, fsec1, { MTrace.start with cacheHit := true }⟩
  else
    let tr1 : MTrace := { MTrace.start with headerRead := true }
    match read_elf_header env.hdrAllocOk env.hdr with
    | .null => mmapExit 0 awoe ino1 fsec1 tr1
    | .errPtr e => mmapExit e awoe ino1 fsec1 tr1
    | .ptr h =>
      if die_if_elf ≠ 0 then mmapExit die_if_elf awoe ino1 fsec1 tr1
      else
        let arch32 := h.e_ident.getD EI_CLASS 0 = ELFCLASS32
        let tr2 := { tr1 with sectionRead := true }
        match read_section_header env.shAllocOk env.sections h.e_shnum with
        | .null => mmapExit (-EINVAL) awoe ino1 fsec1 tr2
        | .errPtr _ => mmapExit (-EINVAL) awoe ino1 fsec1 tr2
        | .ptr shdata =>
          let fr := if arch32 then digsig_find_signature32 shdata env.content
                    else digsig_find_signature64 shdata env.content
          let tr3 := { tr2 with sigRead := fr.2 }
          match fr.1 with
          | none => mmapExit env.mode awoe ino1 fsec1 tr3
          | some sigoff =>
            let v := digsig_verify_signature env.rev env.initOk
                       env.blocksAllocOk env.finalFn env.reads env.i_size
                       sigoff.1 sigoff.2
            let tr4 := { tr3 with verifyCalled := true,
                                  hashReads := v.readCount }
            if v.retval = 0 then
              ⟨0, { ino1 with cached := true }, fsec1, tr4⟩
            else mmapExit (-EPERM) awoe ino1 fsec1 tr4

/-- `digsig_mmap_file` (lines 553-690).  The early `return 0` cases cover
`!g_init`, a non-executable request, and a null file/dentry/name
(`fileOk`); an unprotected (blacklisted) filesystem returns the policy
default.  Then the writer-exclusion preamble (lines 594-601): a handle
that does not yet hold a lease calls `digsig_deny_write_access`; on
failure the result is remembered in `die_if_elf` and
`allow_write_on_exit` is cleared. -/
def digsig_mmap_file (env : MmapEnv) (ino0 : Inode) (fsec0 : Bool) :
    MmapOut :=
  if !env.g_init then ⟨0, ino0, fsec0, MTrace.start⟩
  else if !env.reqprot_exec then ⟨0, ino0, fsec0, MTrace.start⟩
  else if !env.fileOk then ⟨0, ino0, fsec0, MTrace.start⟩
  else if env.unprotected then ⟨env.mode, ino0, fsec0, MTrace.start⟩
  else
    let dwa : Int × Inode × Bool :=
      if fsec0 = false then digsig_deny_write_access ino0 fsec0
      else (0, ino0, fsec0)
    let die_if_elf : Int := if fsec0 = false ∧ dwa.1 ≠ 0 then dwa.1 else 0
    let awoe : Bool := !fsec0 && dwa.1 == 0
    digsigMmapStage2 env die_if_elf awoe dwa.2.1 dwa.2.2

/-! ## The write/exec guard state machine

The guarded operations on one file identity, as the spec's §4.7 names
them, each implemented by the digsig.c primitive it triggers plus the
kernel-maintained bookkeeping around it: an allowed write-open makes the
VFS increment `i_writecount`, closing the writer decrements it, and
closing a file whose `f_security` was set runs
`digsig_file_free_security`, i.e. `digsig_allow_write_access`
(lines 378-382).  `leases` counts the open file handles whose
`f_security` is set, so `fileClose` models closing one of them. -/

inductive GuardOp where
  | writeOpen
  | writeClose
  | execAcquire
  | fileClose
deriving DecidableEq

structure GState where
  ino : Inode
  leases : Nat
deriving DecidableEq

def guardStep (s : GState) : GuardOp → Int × GState
  | .writeOpen =>
    let r := digsig_inode_permission true s.ino true
    if r.1 = 0 then
      (0, ⟨{ r.2 with writecount := r.2.writecount + 1 }, s.leases⟩)
    else (r.1, ⟨r.2, s.leases⟩)
  | .writeClose =>
    (0, ⟨{ s.ino with writecount := s.ino.writecount - 1 }, s.leases⟩)
  | .execAcquire =>
    let r := digsig_deny_write_access s.ino false
    (r.1, ⟨r.2.1, if r.2.2 then s.leases + 1 else s.leases⟩)
  | .fileClose =>
    if s.leases > 0 then
      let r := digsig_allow_write_access s.ino true
      (0, ⟨r.1, s.leases - 1⟩)
    else (0, s)

def guardInit : GState := ⟨⟨0, 0, false⟩, 0⟩

def runGuard (ops : List GuardOp) : GState :=
  ops.foldl (fun s op => (guardStep s op).2) guardInit

/-- The guard invariant: the exec-map count equals the number of
outstanding leases, and writers and exec-mappers are mutually exclusive. -/
def guardInv (s : GState) : Prop :=
  s.ino.isec = s.leases ∧ (s.ino.writecount = 0 ∨ s.ino.isec = 0)

/-! ## Concrete inputs used by counterexamples and witnesses -/

/-- A `kernel_read` behaviour whose second mid-stream read returns zero
bytes: the inode declares `i_size = 2048` but the backing store delivers
1024 bytes and then nothing (the file shrank between the `i_size_read`
snapshot and the second block read). -/
def c4Reads : Nat → Except Int (List Nat) :=
  fun k => if k = 0 then Except.ok (List.replicate 1024 1) else Except.ok []

/-- A well-formed 32-bit ELF header declaring one section-table entry. -/
def hdr32one : ElfHdr :=
  ⟨[0x7f, 0x45, 0x4c, 0x46, 1, 0, 0, 0, 0, 0, 0, 0, 0, 0, 0, 0], 64, 40, 1⟩

/-- A section table holding exactly one signature section of the exact
mandated size, placed at file offset 4096. -/
def sigSections : List Shdr :=
  [⟨DIGSIG_ELF_SIG_SECTION, DIGSIG_ELF_SIG_SIZE, 4096⟩]

/-- File content long enough for the signature read at offset 4096. -/
def c4Content : List Nat := List.replicate 4608 0

/-- The exec-map environment of the C4 failing input: a valid signed
32-bit image in restrictive mode whose verify oracle would reject
(`finalFn` returns 1), read through `c4Reads`. -/
def c4Env : MmapEnv :=
  { g_init := true, reqprot_exec := true, fileOk := true,
    unprotected := false, mode := -EPERM, hdrAllocOk := true,
    hdr := hdr32one, shAllocOk := true, sections := sigSections,
    content := c4Content, rev := [], initOk := true, blocksAllocOk := true,
    finalFn := fun _ _ => 1, reads := c4Reads, i_size := 2048 }

/-- A section table whose only signature-typed entry declares size
`DIGSIG_ELF_SIG_SIZE - 1` (one byte short of the mandated size). -/
def badSizeSections : List Shdr :=
  [⟨DIGSIG_ELF_SIG_SECTION, DIGSIG_ELF_SIG_SIZE - 1, 4096⟩]

/-- The C2 counterexample environment: the well-formed image of `c4Env`
but with the wrong-size signature section and the permissive policy
default (`DIGSIG_MODE = 0`). -/
def c2Env : MmapEnv := { c4Env with mode := 0, sections := badSizeSections }

/-- The same well-formed signed image as `c4Env`, but with `i_size = 0`
(no content blocks), so the streaming loop completes immediately and the
verdict is decided by the verify oracle — which rejects
(`finalFn` returns 1). -/
def c8Env : MmapEnv := { c4Env with i_size := 0 }

/-! # Theorems -/

lemma memsetRange_length (l : List Nat) (j lo hi : Nat) :
    (memsetRange l j lo hi).length = l.length := by
  induction l generalizing j with
  | nil => simp [memsetRange]
  | cons b rest ih => simp [memsetRange, ih]

lemma memsetRange_getElem? (l : List Nat) (j lo hi : Nat) :
    ∀ i, (memsetRange l j lo hi)[i]? =
      (l[i]?).map (fun b => if lo ≤ j + i ∧ j + i < hi then 0 else b) := by
  induction l generalizing j with
  | nil => intro i; simp [memsetRange]
  | cons b rest ih =>
    intro i
    cases i with
    | zero => simp [memsetRange]
    | succ n =>
      simp only [memsetRange, List.getElem?_cons_succ]
      have h : j + (n + 1) = j + 1 + n := by omega
      simp only [h]
      exact ih (j + 1) n

/-- C1: for every block read from the file, the zero-patching step of the
streaming verify engine overwrites exactly the intersection of the block's
byte range with the signature section's range
`[sh_offset, sh_offset + DIGSIG_ELF_SIG_SIZE)` with zero bytes, and passes
every byte outside that intersection through unchanged: byte `i` of the
patched block (file position `offset + i`) is zero exactly when it lies in
the signature section's range, and is the original byte otherwise. -/
theorem digsig_c1_zero_patch (block : List Nat) (offset shoff : Nat)
    (hlen : block.length ≤ DIGSIG_ELF_READ_BLOCK_SIZE) :
    (zeroPatch block offset shoff).length = block.length ∧
    ∀ i, (zeroPatch block offset shoff)[i]? =
      (block[i]?).map (fun b =>
        if shoff ≤ offset + i ∧ offset + i < shoff + DIGSIG_ELF_SIG_SIZE
        then 0 else b) := by
  simp only [zeroPatch]
  by_cases hc : shoff < offset + DIGSIG_ELF_READ_BLOCK_SIZE ∧
      offset < shoff + DIGSIG_ELF_SIG_SIZE
  · rw [if_pos hc]
    refine ⟨memsetRange_length _ _ _ _, fun i => ?_⟩
    rw [memsetRange_getElem?]
    by_cases hi : i < block.length
    · have hiB : i < DIGSIG_ELF_READ_BLOCK_SIZE := Nat.lt_of_lt_of_le hi hlen
      apply Option.map_congr
      intro b _
      have harith :
          (max offset shoff - offset ≤ 0 + i ∧
            0 + i <
              min (offset + DIGSIG_ELF_READ_BLOCK_SIZE)
                (shoff + DIGSIG_ELF_SIG_SIZE) - offset) ↔
          (shoff ≤ offset + i ∧
            offset + i < shoff + DIGSIG_ELF_SIG_SIZE) := by
        omega
      exact if_congr harith rfl rfl
    · rw [List.getElem?_eq_none (by omega)]
      simp
  · rw [if_neg hc]
    refine ⟨rfl, fun i => ?_⟩
    by_cases hi : i < block.length
    · have hiB : i < DIGSIG_ELF_READ_BLOCK_SIZE := Nat.lt_of_lt_of_le hi hlen
      have hcond : ¬(shoff ≤ offset + i ∧
          offset + i < shoff + DIGSIG_ELF_SIG_SIZE) := by omega
      cases hbi : block[i]? with
      | none => simp
      | some b => simp [hcond]
    · simp [List.getElem?_eq_none (Nat.le_of_not_lt hi)]

/-- Witness for C1 at a concrete block: a 3-byte block at file offset 0
with the signature section starting at offset 1 has its byte at index 1
zeroed. -/
theorem digsig_c1_witness :
    ([1, 2, 3] : List Nat).length ≤ DIGSIG_ELF_READ_BLOCK_SIZE ∧
    (zeroPatch [1, 2, 3] 0 1)[1]? = some 0 :=
  ⟨by decide, by
    have h := (digsig_c1_zero_patch [1, 2, 3] 0 1 (by decide)).2 1
    rw [h]; decide⟩

/-- C3: a revoked signature is rejected immediately by
`digsig_verify_signature` (lines 248-262): the result is `-EPERM`, the
hash/verify context is never initialised, no content block is read, and
nothing is fed to the hash. -/
theorem digsig_c3_revocation (rev : List (List Nat))
    (initOk blocksAllocOk : Bool) (finalFn : List Nat → List Nat → Int)
    (reads : Nat → Except Int (List Nat)) (i_size : Nat)
    (sig_orig : List Nat) (sh_offset : Nat)
    (hrev : digsig_is_revoked_sig rev sig_orig = true) :
    digsig_verify_signature rev initOk blocksAllocOk finalFn reads i_size
      sig_orig sh_offset = ⟨-EPERM, false, 0, []⟩ := by
  simp [digsig_verify_signature, hrev]

/-- Witness for C3: a two-byte signature contained in the revocation set
is rejected without context initialisation or reads, even though the
verify oracle would accept and the file has content to hash. -/
theorem digsig_c3_witness :
    digsig_is_revoked_sig [[1, 2]] [1, 2] = true ∧
    digsig_verify_signature [[1, 2]] true true (fun _ _ => 0)
      (fun _ => Except.ok [7]) 2048 [1, 2] 0 = ⟨-EPERM, false, 0, []⟩ :=
  ⟨by decide, digsig_c3_revocation [[1, 2]] true true (fun _ _ => 0)
      (fun _ => Except.ok [7]) 2048 [1, 2] 0 (by decide)⟩

set_option maxRecDepth 100000 in
/-- C4 (code bug): a mid-stream read that returns zero bytes does abort
the loop, but with `retval = 0` — the *success* verdict — because the C
`goto out` on `retval <= 0` returns the `kernel_read` result itself
(lines 272-279, 320-327).  On the concrete failing input (declared size
2048, reads delivering 1024 bytes then 0) `digsig_verify_signature`
returns 0 with only 1024 of the 2048 declared bytes hashed, and
`digsig_mmap_file` then treats the file as verified: it is allowed and its
identity is cached, even though the verify oracle would have rejected. -/
theorem digsig_c4_code_bug :
    digsig_verify_signature [] true true (fun _ _ => 1) c4Reads 2048
        (List.replicate DIGSIG_ELF_SIG_SIZE 0) 4096
      = ⟨0, true, 2, List.replicate 1024 1⟩ ∧
    (digsig_mmap_file c4Env ⟨0, 0, false⟩ false).retval = 0 ∧
    (digsig_mmap_file c4Env ⟨0, 0, false⟩ false).ino.cached = true := by
  refine ⟨by decide, by decide, by decide⟩

/-- C5: `read_elf_header` (with the header allocation succeeding)
classifies every input header as the claim states: magic mismatch is the
NULL pass-through (and `digsig_mmap_file` then allows with 0); a zero
section-table offset, a section-entry size different from the exact
structure size for the detected bitness, and a section count whose byte
budget `count * entry-size` exceeds 64 KiB are all `ERR_PTR(-EINVAL)`;
a header passing all checks is returned as the parsed header view. -/
theorem digsig_c5_header_checks (h : ElfHdr) :
    (h.e_ident.take 4 ≠ ELFMAG → read_elf_header true h = KPtr.null) ∧
    (h.e_ident.take 4 = ELFMAG → h.e_shoff = 0 →
      read_elf_header true h = KPtr.errPtr (-EINVAL)) ∧
    (h.e_ident.getD EI_CLASS 0 = ELFCLASS32 →
      h.e_ident.take 4 = ELFMAG → h.e_shoff ≠ 0 →
      h.e_shentsize ≠ sizeofElf32Shdr →
      read_elf_header true h = KPtr.errPtr (-EINVAL)) ∧
    (h.e_ident.getD EI_CLASS 0 ≠ ELFCLASS32 →
      h.e_ident.take 4 = ELFMAG → h.e_shoff ≠ 0 →
      h.e_shentsize ≠ sizeofElf64Shdr →
      read_elf_header true h = KPtr.errPtr (-EINVAL)) ∧
    (h.e_ident.getD EI_CLASS 0 = ELFCLASS32 →
      h.e_ident.take 4 = ELFMAG → h.e_shoff ≠ 0 →
      h.e_shnum * sizeofElf32Shdr > 65536 →
      read_elf_header true h = KPtr.errPtr (-EINVAL)) ∧
    (h.e_ident.getD EI_CLASS 0 ≠ ELFCLASS32 →
      h.e_ident.take 4 = ELFMAG → h.e_shoff ≠ 0 →
      h.e_shnum * sizeofElf64Shdr > 65536 →
      read_elf_header true h = KPtr.errPtr (-EINVAL)) ∧
    (h.e_ident.getD EI_CLASS 0 = ELFCLASS32 →
      h.e_ident.take 4 = ELFMAG → h.e_shoff ≠ 0 →
      h.e_shentsize = sizeofElf32Shdr →
      h.e_shnum * sizeofElf32Shdr ≤ 65536 →
      read_elf_header true h = KPtr.ptr h) ∧
    (h.e_ident.getD EI_CLASS 0 ≠ ELFCLASS32 →
      h.e_ident.take 4 = ELFMAG → h.e_shoff ≠ 0 →
      h.e_shentsize = sizeofElf64Shdr →
      h.e_shnum * sizeofElf64Shdr ≤ 65536 →
      read_elf_header true h = KPtr.ptr h) := by
  refine ⟨?_, ?_, ?_, ?_, ?_, ?_, ?_, ?_⟩ <;>
    intros <;>
    simp only [read_elf_header, elf_sanity_check32, elf_sanity_check64,
      sizeofElf32Shdr, sizeofElf64Shdr, Bool.not_true, if_false,
      Bool.false_eq_true] <;>
    split_ifs <;>
    first
      | rfl
      | omega
      | (simp_all [sizeofElf32Shdr, sizeofElf64Shdr]; omega)
      | simp_all [sizeofElf32Shdr, sizeofElf64Shdr]

/-- Witness for C5: the concrete well-formed 32-bit header passes all
checks and yields the header view. -/
theorem digsig_c5_witness :
    (hdr32one.e_ident.getD EI_CLASS 0 = ELFCLASS32 ∧
      hdr32one.e_ident.take 4 = ELFMAG ∧ hdr32one.e_shoff ≠ 0 ∧
      hdr32one.e_shentsize = sizeofElf32Shdr ∧
      hdr32one.e_shnum * sizeofElf32Shdr ≤ 65536) ∧
    read_elf_header true hdr32one = KPtr.ptr hdr32one :=
  ⟨by decide,
    (digsig_c5_header_checks hdr32one).2.2.2.2.2.2.1
      (by decide) (by decide) (by decide) (by decide) (by decide)⟩

lemma guardStep_inv (s : GState) (op : GuardOp) (h : guardInv s) :
    guardInv (guardStep s op).2 := by
  rcases h with ⟨h1, h2⟩
  cases op <;>
    simp only [guardStep, digsig_inode_permission, digsig_deny_write_access,
      digsig_allow_write_access, guardInv, EPERM, ETXTBSY, Bool.not_true,
      if_false] <;>
    (try split_ifs) <;> simp_all <;> omega

lemma foldl_guard_inv (ops : List GuardOp) :
    ∀ s, guardInv s →
      guardInv (ops.foldl (fun s op => (guardStep s op).2) s) := by
  induction ops with
  | nil => intro s h; exact h
  | cons op rest ih => intro s h; exact ih _ (guardStep_inv s op h)

/-- C6 counterexample: after one exec-map acquisition the exec-map count
is positive and a write-open request is denied — but with `-EPERM`
(line 110), not with the busy-text error `-ETXTBSY` the claim states. -/
theorem digsig_c6_counterexample :
    (runGuard [GuardOp.execAcquire]).ino.isec > 0 ∧
    (guardStep (runGuard [GuardOp.execAcquire]) GuardOp.writeOpen).1
      = -EPERM ∧
    (guardStep (runGuard [GuardOp.execAcquire]) GuardOp.writeOpen).1
      ≠ -ETXTBSY := by
  refine ⟨by decide, by decide, by decide⟩

/-- C6 amended: under every sequence of guard operations from the initial
state, `write_open_pending` (`i_writecount > 0`) and `exec_map_count > 0`
(`i_security > 0`) are mutually exclusive; while the exec-map count is
positive a write-open request is denied, with `-EPERM` (not the busy-text
error, which is what the exec-map side returns), leaving the state
unchanged; and while the file has an outstanding writer, acquiring an
exec-map lease fails with `-ETXTBSY`, leaving the state unchanged. -/
theorem digsig_c6_amended (ops : List GuardOp) :
    ¬((runGuard ops).ino.writecount > 0 ∧ (runGuard ops).ino.isec > 0) ∧
    ((runGuard ops).ino.isec > 0 →
      (guardStep (runGuard ops) GuardOp.writeOpen).1 = -EPERM ∧
      (guardStep (runGuard ops) GuardOp.writeOpen).2 = runGuard ops) ∧
    ((runGuard ops).ino.writecount > 0 →
      (guardStep (runGuard ops) GuardOp.execAcquire).1 = -ETXTBSY ∧
      (guardStep (runGuard ops) GuardOp.execAcquire).2 = runGuard ops) := by
  have hinv : guardInv (runGuard ops) :=
    foldl_guard_inv ops guardInit ⟨rfl, Or.inl rfl⟩
  refine ⟨?_, ?_, ?_⟩
  · rcases hinv with ⟨h1, h2⟩; omega
  · intro hpos
    simp [guardStep, digsig_inode_permission, hpos, EPERM]
  · intro hpos
    simp [guardStep, digsig_deny_write_access, hpos]

/-- Witness for C6 amended: after one exec-map acquisition the write-open
request is denied with `-EPERM` and the state is unchanged. -/
theorem digsig_c6_amended_witness :
    (runGuard [GuardOp.execAcquire]).ino.isec > 0 ∧
    (guardStep (runGuard [GuardOp.execAcquire]) GuardOp.writeOpen).1
      = -EPERM :=
  ⟨by decide,
    ((digsig_c6_amended [GuardOp.execAcquire]).2.1 (by decide)).1⟩

lemma mmap_eq_stage2 (env : MmapEnv) (ino0 : Inode) (fsec0 : Bool)
    (hg : env.g_init = true) (hx : env.reqprot_exec = true)
    (hf : env.fileOk = true) (hu : env.unprotected = false) :
    digsig_mmap_file env ino0 fsec0 =
      if fsec0 = false then
        (if ino0.writecount > 0
         then digsigMmapStage2 env (-ETXTBSY) false ino0 fsec0
         else digsigMmapStage2 env 0 true
                { ino0 with isec := ino0.isec + 1 } true)
      else digsigMmapStage2 env 0 false ino0 fsec0 := by
  cases fsec0 <;>
    by_cases hw : ino0.writecount > 0 <;>
    simp_all [digsig_mmap_file, digsig_deny_write_access, ETXTBSY]

lemma stage2_trace_cacheHit (env : MmapEnv) (die : Int) (awoe : Bool)
    (ino1 : Inode) (fsec1 : Bool) (hc : ino1.cached = false) :
    (digsigMmapStage2 env die awoe ino1 fsec1).trace.cacheHit = false := by
  simp only [digsigMmapStage2, hc, Bool.false_eq_true, if_false, mmapExit]
  (repeat' split) <;> rfl

/-- C10: until a public key has been provided (`g_init = 0`), every hook
returns 0 immediately with the inode, file-security and cache state left
untouched and no step of the pipeline performed: the exec-map check, the
write-permission check and the unlink hook are all disabled
(lines 104-105, 128-129, 570-571). -/
theorem digsig_c10_disabled (env : MmapEnv) (ino : Inode)
    (fsec mayWrite : Bool) (hg : env.g_init = false) :
    digsig_mmap_file env ino fsec = ⟨0, ino, fsec, MTrace.start⟩ ∧
    digsig_inode_permission false ino mayWrite = (0, ino) ∧
    digsig_inode_unlink false ino = (0, ino) := by
  refine ⟨?_, ?_, ?_⟩
  · simp [digsig_mmap_file, hg]
  · simp [digsig_inode_permission]
  · simp [digsig_inode_unlink]

/-- Witness for C10: with the module uninitialised, an exec-map request
on a dirty state (outstanding writer, exec-map count, cached entry) is
allowed unchanged. -/
theorem digsig_c10_witness :
    ({ c4Env with g_init := false } : MmapEnv).g_init = false ∧
    digsig_mmap_file { c4Env with g_init := false } ⟨3, 2, true⟩ true
      = ⟨0, ⟨3, 2, true⟩, true, MTrace.start⟩ :=
  ⟨rfl, (digsig_c10_disabled { c4Env with g_init := false }
          ⟨3, 2, true⟩ true true rfl).1⟩

/-- C7 counterexample: on the concrete well-formed image of `c4Env` with
an outstanding writer (`i_writecount = 1`), an exec-map request whose
identity has a cached validation is *allowed* (the cached-acceptance fast
path at lines 604-609 runs before `die_if_elf` is acted on), and when the
identity is not cached the denial does happen (`-ETXTBSY`) but only after
the ELF header has been read and parsed (line 611 precedes line 618). -/
theorem digsig_c7_counterexample :
    (⟨0, 1, true⟩ : Inode).writecount > 0 ∧
    (digsig_mmap_file c4Env ⟨0, 1, true⟩ false).retval = 0 ∧
    (digsig_mmap_file c4Env ⟨0, 1, false⟩ false).retval = -ETXTBSY ∧
    (digsig_mmap_file c4Env ⟨0, 1, false⟩ false).trace.headerRead
      = true := by
  refine ⟨by decide, by decide, by decide, by decide⟩

/-- C7 amended: for an exec-map request on a file identity with an
outstanding writer (and no lease yet held by the requesting handle): if
the identity is cached-accepted the mapping is allowed via the cache fast
path, overriding the denial; otherwise the ELF header is read first, and
only when the file is a valid ELF image is the mapping denied with
`-ETXTBSY`, before any section-table read, signature read, or hashing;
a file not recognised as ELF is allowed. -/
theorem digsig_c7_amended (env : MmapEnv) (ino : Inode)
    (hg : env.g_init = true) (hx : env.reqprot_exec = true)
    (hf : env.fileOk = true) (hu : env.unprotected = false)
    (hw : ino.writecount > 0) :
    (ino.cached = true →
      digsig_mmap_file env ino false =
        ⟨0, ino, false, { MTrace.start with cacheHit := true }⟩) ∧
    (ino.cached = false →
      ∀ h, read_elf_header env.hdrAllocOk env.hdr = KPtr.ptr h →
        (digsig_mmap_file env ino false).retval = -ETXTBSY ∧
        (digsig_mmap_file env ino false).ino = ino ∧
        (digsig_mmap_file env ino false).trace.headerRead = true ∧
        (digsig_mmap_file env ino false).trace.sectionRead = false ∧
        (digsig_mmap_file env ino false).trace.sigRead = false ∧
        (digsig_mmap_file env ino false).trace.verifyCalled = false) ∧
    (ino.cached = false →
      read_elf_header env.hdrAllocOk env.hdr = KPtr.null →
      (digsig_mmap_file env ino false).retval = 0) := by
  rw [mmap_eq_stage2 env ino false hg hx hf hu, if_pos rfl, if_pos hw]
  refine ⟨?_, ?_, ?_⟩
  · intro hc
    simp [digsigMmapStage2, hc]
  · intro hc h hh
    simp [digsigMmapStage2, hc, hh, mmapExit, ETXTBSY, MTrace.start]
  · intro hc hh
    simp [digsigMmapStage2, hc, hh, mmapExit]

/-- Witness for C7 amended: the cached case of the concrete image. -/
theorem digsig_c7_amended_witness :
    (c4Env.g_init = true ∧ (⟨0, 1, true⟩ : Inode).writecount > 0 ∧
      (⟨0, 1, true⟩ : Inode).cached = true) ∧
    digsig_mmap_file c4Env ⟨0, 1, true⟩ false
      = ⟨0, ⟨0, 1, true⟩, false, { MTrace.start with cacheHit := true }⟩ :=
  ⟨⟨rfl, by decide, rfl⟩,
    (digsig_c7_amended c4Env ⟨0, 1, true⟩ rfl rfl rfl rfl
        (by decide)).1 rfl⟩

/-- C2 counterexample: on the concrete image whose only signature-typed
section declares size `DIGSIG_ELF_SIG_SIZE - 1`, the locator returns NULL
— the same result as for an absent signature section — and in the
permissive configuration (`DIGSIG_MODE = 0`) the exec-map request is
*allowed* (retval 0), not denied: the wrong-size case is policy-modulated
exactly like the signature-missing case, contradicting the claim. -/
theorem digsig_c2_counterexample :
    (digsig_find_signature32 badSizeSections c4Content).1 = none ∧
    (digsig_mmap_file c2Env ⟨0, 0, false⟩ false).retval = 0 ∧
    (digsig_mmap_file c2Env ⟨0, 0, false⟩ false).retval = c2Env.mode ∧
    (digsig_mmap_file c2Env ⟨0, 0, false⟩ false).trace.verifyCalled
      = false := by
  refine ⟨by decide, by decide, by decide, by decide⟩

/-- C2 amended: when the section-table scan finds a signature-typed
section whose declared size is not exactly the mandated fixed size, the
locator returns NULL exactly as in the signature-missing case
(lines 188-189), and the exec-map request results in the policy default
`DIGSIG_MODE` (deny only in restrictive mode, allow in permissive mode),
with no verification attempted — it is not an unconditional
Malformed/Deny. -/
theorem digsig_c2_amended (env : MmapEnv) (ino : Inode) (s : Shdr)
    (hg : env.g_init = true) (hx : env.reqprot_exec = true)
    (hf : env.fileOk = true) (hu : env.unprotected = false)
    (hcache : ino.cached = false) (hw : ino.writecount = 0)
    (hh : read_elf_header env.hdrAllocOk env.hdr = KPtr.ptr env.hdr)
    (hsa : env.shAllocOk = true)
    (hlen : env.hdr.e_shnum ≤ env.sections.length)
    (hfind : (env.sections.take env.hdr.e_shnum).find?
        (fun t => t.sh_type == DIGSIG_ELF_SIG_SECTION) = some s)
    (hsize : s.sh_size ≠ DIGSIG_ELF_SIG_SIZE) :
    (digsig_mmap_file env ino false).retval = env.mode ∧
    (digsig_mmap_file env ino false).trace.verifyCalled = false ∧
    (digsig_find_signature32 (env.sections.take env.hdr.e_shnum)
        env.content).1 = none ∧
    (digsig_find_signature64 (env.sections.take env.hdr.e_shnum)
        env.content).1 = none := by
  have h32 : digsig_find_signature32 (env.sections.take env.hdr.e_shnum)
      env.content = (none, false) := by
    simp [digsig_find_signature32, hfind, hsize]
  have h64 : digsig_find_signature64 (env.sections.take env.hdr.e_shnum)
      env.content = (none, false) := by
    simp [digsig_find_signature64, hfind, hsize]
  have hsec : read_section_header env.shAllocOk env.sections
      env.hdr.e_shnum = KPtr.ptr (env.sections.take env.hdr.e_shnum) := by
    simp [read_section_header, hsa, Nat.not_lt.mpr hlen]
  have hstage : digsigMmapStage2 env 0 true
      { ino with isec := ino.isec + 1 } true =
      mmapExit env.mode true { ino with isec := ino.isec + 1 } true
        { MTrace.start with
            headerRead := true
            sectionRead := true
            sigRead := false } := by
    by_cases harch : env.hdr.e_ident.getD EI_CLASS 0 = ELFCLASS32 <;>
      simp [digsigMmapStage2, hcache, hh, hsec, harch, h32, h64,
        MTrace.start]
  rw [mmap_eq_stage2 env ino false hg hx hf hu, if_pos rfl,
    if_neg (by omega), hstage]
  exact ⟨by simp [mmapExit], by simp [mmapExit, MTrace.start],
    congrArg Prod.fst h32, congrArg Prod.fst h64⟩

/-- Witness for C2 amended: the concrete wrong-size image in permissive
mode is allowed with the policy default. -/
theorem digsig_c2_amended_witness :
    (c2Env.g_init = true ∧
      (badSizeSections.take c2Env.hdr.e_shnum).find?
          (fun t => t.sh_type == DIGSIG_ELF_SIG_SECTION)
        = some ⟨DIGSIG_ELF_SIG_SECTION, DIGSIG_ELF_SIG_SIZE - 1, 4096⟩ ∧
      (DIGSIG_ELF_SIG_SIZE - 1 : Nat) ≠ DIGSIG_ELF_SIG_SIZE) ∧
    (digsig_mmap_file c2Env ⟨0, 0, false⟩ false).retval = c2Env.mode :=
  ⟨⟨rfl, by decide, by decide⟩,
    (digsig_c2_amended c2Env ⟨0, 0, false⟩
        ⟨DIGSIG_ELF_SIG_SECTION, DIGSIG_ELF_SIG_SIZE - 1, 4096⟩
        rfl rfl rfl rfl rfl rfl (by decide) rfl (by decide)
        (by decide) (by decide)).1⟩

lemma stage2_cases (env : MmapEnv) (die : Int) (awoe : Bool)
    (ino1 : Inode) (fsec1 : Bool) :
    (ino1.cached = true ∧
      digsigMmapStage2 env die awoe ino1 fsec1 =
        ⟨0, ino1, fsec1, { MTrace.start with cacheHit := true }⟩) ∨
    (ino1.cached = false ∧ ∃ r tr, tr.verifyCalled = false ∧
      digsigMmapStage2 env die awoe ino1 fsec1 =
        mmapExit r awoe ino1 fsec1 tr) ∨
    (ino1.cached = false ∧ ∃ tr, tr.verifyCalled = true ∧
      digsigMmapStage2 env die awoe ino1 fsec1 =
        ⟨0, { ino1 with cached := true }, fsec1, tr⟩) ∨
    (ino1.cached = false ∧ ∃ tr, tr.verifyCalled = true ∧
      digsigMmapStage2 env die awoe ino1 fsec1 =
        mmapExit (-EPERM) awoe ino1 fsec1 tr) := by
  by_cases hc : ino1.cached
  · exact Or.inl ⟨hc, by simp [digsigMmapStage2, hc]⟩
  · replace hc : ino1.cached = false := by simpa using hc
    right
    cases hh : read_elf_header env.hdrAllocOk env.hdr with
    | null =>
      left
      exact ⟨hc, 0, ⟨false, true, false, false, false, 0⟩, rfl,
        by simp [digsigMmapStage2, hc, hh, MTrace.start]⟩
    | errPtr e =>
      left
      exact ⟨hc, e, ⟨false, true, false, false, false, 0⟩, rfl,
        by simp [digsigMmapStage2, hc, hh, MTrace.start]⟩
    | ptr h =>
      by_cases hd : die = 0
      · subst hd
        cases hs : read_section_header env.shAllocOk env.sections
            h.e_shnum with
        | null =>
          left
          exact ⟨hc, -EINVAL, ⟨false, true, true, false, false, 0⟩, rfl,
            by simp [digsigMmapStage2, hc, hh, hs, MTrace.start]⟩
        | errPtr e2 =>
          left
          exact ⟨hc, -EINVAL, ⟨false, true, true, false, false, 0⟩, rfl,
            by simp [digsigMmapStage2, hc, hh, hs, MTrace.start]⟩
        | ptr shdata =>
          cases hfr : (if h.e_ident.getD EI_CLASS 0 = ELFCLASS32
              then digsig_find_signature32 shdata env.content
              else digsig_find_signature64 shdata env.content).1 with
          | none =>
            left
            exact ⟨hc, env.mode,
              ⟨false, true, true,
                (if h.e_ident.getD EI_CLASS 0 = ELFCLASS32
                 then digsig_find_signature32 shdata env.content
                 else digsig_find_signature64 shdata env.content).2,
                false, 0⟩, rfl,
              by
                simp only [List.getD_eq_getElem?_getD] at hfr
                simp [digsigMmapStage2, hc, hh, hs, hfr, MTrace.start]⟩
          | some sigoff =>
            by_cases hv : (digsig_verify_signature env.rev env.initOk
                env.blocksAllocOk env.finalFn env.reads env.i_size
                sigoff.1 sigoff.2).retval = 0
            · right; left
              exact ⟨hc,
                ⟨false, true, true,
                  (if h.e_ident.getD EI_CLASS 0 = ELFCLASS32
                   then digsig_find_signature32 shdata env.content
                   else digsig_find_signature64 shdata env.content).2,
                  true,
                  (digsig_verify_signature env.rev env.initOk
                    env.blocksAllocOk env.finalFn env.reads env.i_size
                    sigoff.1 sigoff.2).readCount⟩, rfl,
                by
                  simp only [List.getD_eq_getElem?_getD] at hfr
                  simp [digsigMmapStage2, hc, hh, hs, hfr, hv,
                    MTrace.start]⟩
            · right; right
              exact ⟨hc,
                ⟨false, true, true,
                  (if h.e_ident.getD EI_CLASS 0 = ELFCLASS32
                   then digsig_find_signature32 shdata env.content
                   else digsig_find_signature64 shdata env.content).2,
                  true,
                  (digsig_verify_signature env.rev env.initOk
                    env.blocksAllocOk env.finalFn env.reads env.i_size
                    sigoff.1 sigoff.2).readCount⟩, rfl,
                by
                  simp only [List.getD_eq_getElem?_getD] at hfr
                  simp [digsigMmapStage2, hc, hh, hs, hfr, hv,
                    MTrace.start]⟩
      · left
        exact ⟨hc, die, ⟨false, true, false, false, false, 0⟩, rfl,
          by simp [digsigMmapStage2, hc, hh, hd, MTrace.start]⟩

/-- C8: the verdict cache is positive-only.  For every exec-map request:
a cache entry appears only when it was already present or the run's
verification returned Accepted (retval 0); when the identity was uncached
and the request did not return 0, the identity is still uncached
afterwards; and after an uncached request that ran verification and was
rejected, the inode and file state are restored exactly, so an immediate
second request runs full verification again instead of hitting a cached
deny. -/
theorem digsig_c8_no_negative_caching (env : MmapEnv) (ino : Inode)
    (fsec : Bool) :
    ((digsig_mmap_file env ino fsec).ino.cached = true →
      ino.cached = true ∨
        ((digsig_mmap_file env ino fsec).retval = 0 ∧
         (digsig_mmap_file env ino fsec).trace.verifyCalled = true)) ∧
    (ino.cached = false → (digsig_mmap_file env ino fsec).retval ≠ 0 →
      (digsig_mmap_file env ino fsec).ino.cached = false) ∧
    (ino.cached = false →
      (digsig_mmap_file env ino fsec).trace.verifyCalled = true →
      (digsig_mmap_file env ino fsec).retval ≠ 0 →
      (digsig_mmap_file env ino fsec).ino = ino ∧
      (digsig_mmap_file env ino fsec).fsec = fsec ∧
      (digsig_mmap_file env
          (digsig_mmap_file env ino fsec).ino
          (digsig_mmap_file env ino fsec).fsec).trace.verifyCalled
        = true) := by
  by_cases hg : env.g_init = true
  · by_cases hx : env.reqprot_exec = true
    · by_cases hf : env.fileOk = true
      · by_cases hu : env.unprotected = true
        · have hout : digsig_mmap_file env ino fsec
              = ⟨env.mode, ino, fsec, MTrace.start⟩ := by
            simp [digsig_mmap_file, hg, hx, hf, hu]
          refine ⟨?_, ?_, ?_⟩ <;> simp [hout, MTrace.start] <;> tauto
        · have hu' : env.unprotected = false := by simpa using hu
          rw [mmap_eq_stage2 env ino fsec hg hx hf hu']
          by_cases hfs : fsec = false
          · rw [if_pos hfs]
            by_cases hw : ino.writecount > 0
            · rw [if_pos hw]
              rcases stage2_cases env (-ETXTBSY) false ino fsec with
                ⟨hc, hout⟩ | ⟨hc, r, tr, htr, hout⟩ |
                ⟨hc, tr, htr, hout⟩ | ⟨hc, tr, htr, hout⟩
              · refine ⟨?_, ?_, ?_⟩ <;>
                  simp [hout, MTrace.start, hc] <;> tauto
              · refine ⟨?_, ?_, ?_⟩ <;>
                  simp [hout, mmapExit, htr, hc] <;> tauto
              · refine ⟨?_, ?_, ?_⟩ <;> simp [hout, htr, hc] <;> tauto
              · refine ⟨?_, ?_, ?_⟩
                · simp [hout, mmapExit, hc] <;> tauto
                · simp [hout, mmapExit, hc]
                · intro h1 hverify hretval
                  refine ⟨by simp [hout, mmapExit],
                    by simp [hout, mmapExit], ?_⟩
                  simp only [hout, mmapExit, if_neg Bool.false_ne_true]
                  rw [mmap_eq_stage2 env ino fsec hg hx hf hu',
                    if_pos hfs, if_pos hw, hout]
                  simp [mmapExit, htr]
            · rw [if_neg hw]
              rcases stage2_cases env 0 true
                  { ino with isec := ino.isec + 1 } true with
                ⟨hc, hout⟩ | ⟨hc, r, tr, htr, hout⟩ |
                ⟨hc, tr, htr, hout⟩ | ⟨hc, tr, htr, hout⟩
              · refine ⟨?_, ?_, ?_⟩ <;>
                  simp [hout, MTrace.start, hc] <;> simp_all <;> tauto
              · refine ⟨?_, ?_, ?_⟩ <;>
                  simp [hout, mmapExit, digsig_allow_write_access, htr,
                    hc] <;> simp_all <;> tauto
              · refine ⟨?_, ?_, ?_⟩ <;>
                  simp [hout, htr, hc] <;> simp_all <;> tauto
              · refine ⟨?_, ?_, ?_⟩
                · simp [hout, mmapExit, digsig_allow_write_access,
                    hc] <;> tauto
                · simp [hout, mmapExit, digsig_allow_write_access, hc]
                · intro h1 hverify hretval
                  have hback : (digsigMmapStage2 env 0 true
                      { ino with isec := ino.isec + 1 } true).ino
                      = ino := by
                    simp [hout, mmapExit, digsig_allow_write_access]
                  have hback2 : (digsigMmapStage2 env 0 true
                      { ino with isec := ino.isec + 1 } true).fsec
                      = false := by
                    simp [hout, mmapExit, digsig_allow_write_access]
                  refine ⟨hback, by rw [hback2, hfs], ?_⟩
                  rw [hback, hback2,
                    mmap_eq_stage2 env ino false hg hx hf hu',
                    if_pos rfl, if_neg hw, hout]
                  simp [mmapExit, htr]
          · rw [if_neg hfs]
            rcases stage2_cases env 0 false ino fsec with
              ⟨hc, hout⟩ | ⟨hc, r, tr, htr, hout⟩ |
              ⟨hc, tr, htr, hout⟩ | ⟨hc, tr, htr, hout⟩
            · refine ⟨?_, ?_, ?_⟩ <;>
                simp [hout, MTrace.start, hc] <;> tauto
            · refine ⟨?_, ?_, ?_⟩ <;>
                simp [hout, mmapExit, htr, hc] <;> tauto
            · refine ⟨?_, ?_, ?_⟩ <;> simp [hout, htr, hc] <;> tauto
            · refine ⟨?_, ?_, ?_⟩
              · simp [hout, mmapExit, hc] <;> tauto
              · simp [hout, mmapExit, hc]
              · intro h1 hverify hretval
                refine ⟨by simp [hout, mmapExit],
                  by simp [hout, mmapExit], ?_⟩
                simp only [hout, mmapExit, if_neg Bool.false_ne_true]
                rw [mmap_eq_stage2 env ino fsec hg hx hf hu',
                  if_neg hfs, hout]
                simp [mmapExit, htr]
      · have hf' : env.fileOk = false := by simpa using hf
        have hout : digsig_mmap_file env ino fsec
            = ⟨0, ino, fsec, MTrace.start⟩ := by
          simp [digsig_mmap_file, hg, hx, hf']
        refine ⟨?_, ?_, ?_⟩ <;> simp [hout, MTrace.start] <;> tauto
    · have hx' : env.reqprot_exec = false := by simpa using hx
      have hout : digsig_mmap_file env ino fsec
          = ⟨0, ino, fsec, MTrace.start⟩ := by
        simp [digsig_mmap_file, hg, hx']
      refine ⟨?_, ?_, ?_⟩ <;> simp [hout, MTrace.start] <;> tauto
  · have hg' : env.g_init = false := by simpa using hg
    have hout : digsig_mmap_file env ino fsec
        = ⟨0, ino, fsec, MTrace.start⟩ := by
      simp [digsig_mmap_file, hg']
    refine ⟨?_, ?_, ?_⟩ <;> simp [hout, MTrace.start] <;> tauto

set_option maxRecDepth 100000 in
/-- Witness for C8: a concrete rejected verification (the verify oracle
returns 1) leaves the identity uncached with the state restored, and an
immediate second exec-map request runs verification again. -/
theorem digsig_c8_witness :
    ((⟨0, 0, false⟩ : Inode).cached = false ∧
      (digsig_mmap_file c8Env ⟨0, 0, false⟩ false).trace.verifyCalled
        = true ∧
      (digsig_mmap_file c8Env ⟨0, 0, false⟩ false).retval ≠ 0) ∧
    ((digsig_mmap_file c8Env ⟨0, 0, false⟩ false).ino = ⟨0, 0, false⟩ ∧
     (digsig_mmap_file c8Env ⟨0, 0, false⟩ false).fsec = false ∧
     (digsig_mmap_file c8Env
        (digsig_mmap_file c8Env ⟨0, 0, false⟩ false).ino
        (digsig_mmap_file c8Env ⟨0, 0, false⟩ false).fsec).trace.verifyCalled
       = true) :=
  ⟨⟨rfl, by decide, by decide⟩,
    (digsig_c8_no_negative_caching c8Env ⟨0, 0, false⟩ false).2.2 rfl
      (by decide) (by decide)⟩

/-- C9: write invalidation and unlink invalidation.  An allowed write-open
(no outstanding exec mapping) of a cached-accepted identity clears the
cache entry; unlinking the identity clears the cache entry; an exec-map
request on an uncached identity never takes the cache fast path; and when
the header, section table and signature pipeline succeed, the exec-map
request on the uncached identity re-executes full verification. -/
theorem digsig_c9_invalidation :
    (∀ ino : Inode, ino.cached = true → ino.isec = 0 →
      digsig_inode_permission true ino true
        = (0, { ino with cached := false })) ∧
    (∀ ino : Inode, (digsig_inode_unlink true ino).1 = 0 ∧
      (digsig_inode_unlink true ino).2.cached = false) ∧
    (∀ (env : MmapEnv) (ino : Inode) (fsec : Bool), ino.cached = false →
      (digsig_mmap_file env ino fsec).trace.cacheHit = false) ∧
    (∀ (env : MmapEnv) (ino : Inode) (s : Shdr) (buf : List Nat),
      env.g_init = true → env.reqprot_exec = true → env.fileOk = true →
      env.unprotected = false → ino.cached = false →
      ino.writecount = 0 →
      read_elf_header env.hdrAllocOk env.hdr = KPtr.ptr env.hdr →
      env.shAllocOk = true → env.hdr.e_shnum ≤ env.sections.length →
      (env.sections.take env.hdr.e_shnum).find?
          (fun t => t.sh_type == DIGSIG_ELF_SIG_SECTION) = some s →
      s.sh_size = DIGSIG_ELF_SIG_SIZE →
      digsig_read_signature env.content s.sh_offset = some buf →
      (digsig_mmap_file env ino false).trace.verifyCalled = true) := by
  refine ⟨?_, ?_, ?_, ?_⟩
  · intro ino hcached hisec
    simp [digsig_inode_permission, hisec, hcached]
  · intro ino
    by_cases hcached : ino.cached = true <;>
      simp_all [digsig_inode_unlink]
  · intro env ino fsec hcached
    by_cases hg : env.g_init = true
    · by_cases hx : env.reqprot_exec = true
      · by_cases hf : env.fileOk = true
        · by_cases hu : env.unprotected = true
          · simp [digsig_mmap_file, hg, hx, hf, hu, MTrace.start]
          · have hu' : env.unprotected = false := by simpa using hu
            rw [mmap_eq_stage2 env ino fsec hg hx hf hu']
            by_cases hfs : fsec = false
            · rw [if_pos hfs]
              by_cases hw : ino.writecount > 0
              · rw [if_pos hw]
                exact stage2_trace_cacheHit env (-ETXTBSY) false ino fsec
                  hcached
              · rw [if_neg hw]
                exact stage2_trace_cacheHit env 0 true
                  { ino with isec := ino.isec + 1 } true hcached
            · rw [if_neg hfs]
              exact stage2_trace_cacheHit env 0 false ino fsec hcached
        · have hf' : env.fileOk = false := by simpa using hf
          simp [digsig_mmap_file, hg, hf', MTrace.start]
      · have hx' : env.reqprot_exec = false := by simpa using hx
        simp [digsig_mmap_file, hg, hx', MTrace.start]
    · have hg' : env.g_init = false := by simpa using hg
      simp [digsig_mmap_file, hg', MTrace.start]
  · intro env ino s buf hg hx hf hu hcached hw hh hsa hlen hfind hsize
      hread
    have h32 : digsig_find_signature32
        (env.sections.take env.hdr.e_shnum) env.content
        = (some (buf, s.sh_offset), true) := by
      simp [digsig_find_signature32, hfind, hsize, hread]
    have h64 : digsig_find_signature64
        (env.sections.take env.hdr.e_shnum) env.content
        = (some (buf, s.sh_offset), true) := by
      simp [digsig_find_signature64, hfind, hsize, hread]
    have hsec : read_section_header env.shAllocOk env.sections
        env.hdr.e_shnum
        = KPtr.ptr (env.sections.take env.hdr.e_shnum) := by
      simp [read_section_header, hsa, Nat.not_lt.mpr hlen]
    rw [mmap_eq_stage2 env ino false hg hx hf hu, if_pos rfl,
      if_neg (by omega)]
    by_cases harch : env.hdr.e_ident.getD EI_CLASS 0 = ELFCLASS32 <;>
      simp [digsigMmapStage2, hcached, hh, hsec, harch, h32, h64] <;>
      split <;> simp [mmapExit]

set_option maxRecDepth 100000 in
/-- Witness for C9: on the concrete signed image, an exec-map request for
the uncached identity runs full verification. -/
theorem digsig_c9_witness :
    ((⟨0, 0, false⟩ : Inode).cached = false ∧
      (c8Env.sections.take c8Env.hdr.e_shnum).find?
          (fun t => t.sh_type == DIGSIG_ELF_SIG_SECTION)
        = some ⟨DIGSIG_ELF_SIG_SECTION, DIGSIG_ELF_SIG_SIZE, 4096⟩ ∧
      digsig_read_signature c8Env.content 4096
        = some (List.replicate DIGSIG_ELF_SIG_SIZE 0)) ∧
    (digsig_mmap_file c8Env ⟨0, 0, false⟩ false).trace.verifyCalled
      = true :=
  ⟨⟨rfl, by decide, by decide⟩,
    digsig_c9_invalidation.2.2.2 c8Env ⟨0, 0, false⟩
      ⟨DIGSIG_ELF_SIG_SECTION, DIGSIG_ELF_SIG_SIZE, 4096⟩
      (List.replicate DIGSIG_ELF_SIG_SIZE 0)
      rfl rfl rfl rfl rfl rfl (by decide) rfl (by decide) (by decide)
      rfl (by decide)⟩

end Digsig
